import Mathlib

/-!
Shallow embedding of `src/src/ui/app.py` (QuantumNet FastAPI gateway).

The gateway exposes five routes (`/register`, `/entangle`, `/exchange_keys`,
`/send_message`, `/node_status/\x7bnode_id\x7d`).  Each handler issues exactly one
outbound HTTP call via `requests.post`/`requests.get` to the configured
backend base address and translates the backend response into the
client-facing result.

The backend is modelled as an oracle `OutboundRequest → BackendResponse`.
Each handler is embedded as a pure function returning the list of outbound
requests it issued (its HTTP trace) together with the client-facing result.
-/

namespace QuantumNet

/-- JSON values, used for request payloads (`request.dict()` in pydantic)
and for backend response bodies parsed by `response.json()`. -/
inductive Json where
  | null : Json
  | bool : Bool → Json
  | num : Int → Json
  | str : String → Json
  | arr : List Json → Json
  | obj : List (String × Json) → Json

/-- HTTP method of an outbound call (`requests.post` / `requests.get`). -/
inductive Method where
  | post : Method
  | get : Method
deriving DecidableEq

/-- One outbound HTTP request issued by the gateway: method, full URL, and
the JSON payload (`json=` keyword of `requests.post`; `none` for GET). -/
structure OutboundRequest where
  method : Method
  url : String
  body : Option Json

/-- A backend HTTP response as observed through the `requests` response
object: `status_code` and the raw body `text`.  The field `json` abstracts
`response.json()`: it is `some j` when the body text parses as JSON value
`j`, and `none` when the body is not valid JSON (in which case
`response.json()` raises a decoding exception). -/
structure BackendResponse where
  status_code : Nat
  text : String
  json : Option Json

/-- The backend oracle: what the backend replies to each outbound request. -/
def Backend : Type := OutboundRequest → BackendResponse

/-- Client-facing outcome of one gateway handler call:
`ok body` is a 200 response with JSON `body`; `httpError s d` is a raised
`HTTPException(status_code = s, detail = d)`; `jsonDecodeError` is the
unhandled exception escaping from `response.json()` on a non-JSON body. -/
inductive GatewayResult where
  | ok : Json → GatewayResult
  | httpError : Nat → String → GatewayResult
  | jsonDecodeError : GatewayResult

/-- `response.json()`: return the parsed JSON body, or raise (escape with
`jsonDecodeError`) when the body is not valid JSON. -/
def responseJson (r : BackendResponse) : GatewayResult :=
  match r.json with
  | some j => .ok j
  | none => .jsonDecodeError

/-- `RUST_API_URL` from `app.py`: the configured backend base address. -/
def RUST_API_URL : String := "http://localhost:8000"

/-- `class RegisterNodeRequest(BaseModel): node_id: int`. -/
structure RegisterNodeRequest where
  node_id : Int

/-- `request.dict()` for a `RegisterNodeRequest`. -/
def RegisterNodeRequest.dict (r : RegisterNodeRequest) : Json :=
  .obj [("node_id", .num r.node_id)]

/-- `class EntangleNodesRequest(BaseModel): node1: int; node2: int`. -/
structure EntangleNodesRequest where
  node1 : Int
  node2 : Int

/-- `request.dict()` for an `EntangleNodesRequest`. -/
def EntangleNodesRequest.dict (r : EntangleNodesRequest) : Json :=
  .obj [("node1", .num r.node1), ("node2", .num r.node2)]

/-- `class KeyExchangeRequest(BaseModel): node1: int; node2: int`. -/
structure KeyExchangeRequest where
  node1 : Int
  node2 : Int

/-- `request.dict()` for a `KeyExchangeRequest`. -/
def KeyExchangeRequest.dict (r : KeyExchangeRequest) : Json :=
  .obj [("node1", .num r.node1), ("node2", .num r.node2)]

/-- `class SendMessageRequest(BaseModel): sender_id: int; receiver_id: int;
message: str`. -/
structure SendMessageRequest where
  sender_id : Int
  receiver_id : Int
  message : String

/-- `request.dict()` for a `SendMessageRequest`. -/
def SendMessageRequest.dict (r : SendMessageRequest) : Json :=
  .obj [("sender_id", .num r.sender_id), ("receiver_id", .num r.receiver_id),
        ("message", .str r.message)]

/-- The outbound request built by `register_node`:
`requests.post(f"...RUST_API_URL.../register", json=request.dict())`. -/
def RegisterNodeRequest.outbound (r : RegisterNodeRequest) : OutboundRequest :=
  ⟨.post, RUST_API_URL ++ "/register", some r.dict⟩

/-- The outbound request built by `entangle_nodes`. -/
def EntangleNodesRequest.outbound (r : EntangleNodesRequest) : OutboundRequest :=
  ⟨.post, RUST_API_URL ++ "/entangle", some r.dict⟩

/-- The outbound request built by `exchange_keys`. -/
def KeyExchangeRequest.outbound (r : KeyExchangeRequest) : OutboundRequest :=
  ⟨.post, RUST_API_URL ++ "/exchange_keys", some r.dict⟩

/-- The outbound request built by `send_message`. -/
def SendMessageRequest.outbound (r : SendMessageRequest) : OutboundRequest :=
  ⟨.post, RUST_API_URL ++ "/send_message", some r.dict⟩

/-- The outbound request built by `get_node_status` for path parameter
`node_id`: `requests.get(f"...RUST_API_URL.../node_status/...node_id...")`. -/
def nodeStatusOutbound (node_id : Int) : OutboundRequest :=
  ⟨.get, RUST_API_URL ++ "/node_status/" ++ toString node_id, none⟩

/-- `register_node` handler (`app.py` lines 33-41).  Returns the list of
outbound requests it issued together with the client-facing result. -/
def register_node (backend : Backend) (request : RegisterNodeRequest) :
    List OutboundRequest × GatewayResult :=
  let response := backend request.outbound
  ([request.outbound],
    if response.status_code = 201 then
      .ok (.obj [("message", .str "Node registered successfully.")])
    else if response.status_code = 409 then
      .httpError 409 "Node already exists."
    else
      .httpError response.status_code response.text)

/-- `entangle_nodes` handler (`app.py` lines 43-49). -/
def entangle_nodes (backend : Backend) (request : EntangleNodesRequest) :
    List OutboundRequest × GatewayResult :=
  let response := backend request.outbound
  ([request.outbound],
    if response.status_code = 200 then
      .ok (.obj [("message", .str "Nodes entangled successfully.")])
    else
      .httpError response.status_code response.text)

/-- `exchange_keys` handler (`app.py` lines 51-57). -/
def exchange_keys (backend : Backend) (request : KeyExchangeRequest) :
    List OutboundRequest × GatewayResult :=
  let response := backend request.outbound
  ([request.outbound],
    if response.status_code = 200 then
      .ok (.obj [("message", .str "Keys exchanged successfully.")])
    else
      .httpError response.status_code response.text)

/-- `send_message` handler (`app.py` lines 59-65).  On status 200 the
backend body is parsed by `response.json()` and returned unchanged. -/
def send_message (backend : Backend) (request : SendMessageRequest) :
    List OutboundRequest × GatewayResult :=
  let response := backend request.outbound
  ([request.outbound],
    if response.status_code = 200 then
      responseJson response
    else
      .httpError response.status_code response.text)

/-- `get_node_status` handler (`app.py` lines 67-73). -/
def get_node_status (backend : Backend) (node_id : Int) :
    List OutboundRequest × GatewayResult :=
  let response := backend (nodeStatusOutbound node_id)
  ([nodeStatusOutbound node_id],
    if response.status_code = 200 then
      responseJson response
    else
      .httpError response.status_code response.text)

/-- Whether a gateway result is a success (a 200 response with a body). -/
def GatewayResult.isOk : GatewayResult → Bool
  | .ok _ => true
  | _ => false

/-- A backend that replies with the same fixed response to every request;
used to instantiate theorems at concrete inputs. -/
def constBackend (s : Nat) (t : String) (j : Option Json) : Backend :=
  fun _ => ⟨s, t, j⟩

end QuantumNet

namespace QuantumNet

/-- C2: `register(node_id)` returns the fixed confirmation when the backend
replies 201, fails with 409 and the fixed detail "Node already exists."
when the backend replies 409, and for any other backend status `s` fails
with status `s` and the backend body as detail. -/
theorem register_contract (backend : Backend) (r : RegisterNodeRequest) :
    ((backend r.outbound).status_code = 201 →
      (register_node backend r).2 =
        .ok (.obj [("message", .str "Node registered successfully.")])) ∧
    ((backend r.outbound).status_code = 409 →
      (register_node backend r).2 = .httpError 409 "Node already exists.") ∧
    ((backend r.outbound).status_code ≠ 201 →
      (backend r.outbound).status_code ≠ 409 →
      (register_node backend r).2 =
        .httpError (backend r.outbound).status_code (backend r.outbound).text) := by
  refine ⟨fun h => ?_, fun h => ?_, fun h1 h2 => ?_⟩
  · simp [register_node, h]
  · simp [register_node, h]
  · simp [register_node, h1, h2]

/-- Witness for C2 at concrete backends replying 201, 409 and 500. -/
theorem register_contract_witness :
    (register_node (constBackend 201 "created" none) ⟨7⟩).2 =
      .ok (.obj [("message", .str "Node registered successfully.")]) ∧
    (register_node (constBackend 409 "dup" none) ⟨7⟩).2 =
      .httpError 409 "Node already exists." ∧
    (register_node (constBackend 500 "boom" none) ⟨7⟩).2 =
      .httpError 500 "boom" :=
  ⟨(register_contract (constBackend 201 "created" none) ⟨7⟩).1 rfl,
   (register_contract (constBackend 409 "dup" none) ⟨7⟩).2.1 rfl,
   (register_contract (constBackend 500 "boom" none) ⟨7⟩).2.2
     (by decide) (by decide)⟩

/-- C3: `entangle` returns its fixed confirmation exactly when the backend
replies 200 and otherwise fails with the backend status and body;
`exchange_keys` has the same shape with its own fixed confirmation. -/
theorem entangle_exchange_contract (backend : Backend)
    (e : EntangleNodesRequest) (k : KeyExchangeRequest) :
    ((backend e.outbound).status_code = 200 →
      (entangle_nodes backend e).2 =
        .ok (.obj [("message", .str "Nodes entangled successfully.")])) ∧
    ((backend e.outbound).status_code ≠ 200 →
      (entangle_nodes backend e).2 =
        .httpError (backend e.outbound).status_code (backend e.outbound).text) ∧
    ((backend k.outbound).status_code = 200 →
      (exchange_keys backend k).2 =
        .ok (.obj [("message", .str "Keys exchanged successfully.")])) ∧
    ((backend k.outbound).status_code ≠ 200 →
      (exchange_keys backend k).2 =
        .httpError (backend k.outbound).status_code (backend k.outbound).text) := by
  refine ⟨fun h => ?_, fun h => ?_, fun h => ?_, fun h => ?_⟩ <;>
    simp [entangle_nodes, exchange_keys, h]

/-- Witness for C3 at concrete backends replying 200 and 503. -/
theorem entangle_exchange_contract_witness :
    (entangle_nodes (constBackend 200 "ok" none) ⟨1, 2⟩).2 =
      .ok (.obj [("message", .str "Nodes entangled successfully.")]) ∧
    (entangle_nodes (constBackend 503 "down" none) ⟨1, 2⟩).2 =
      .httpError 503 "down" ∧
    (exchange_keys (constBackend 200 "ok" none) ⟨1, 2⟩).2 =
      .ok (.obj [("message", .str "Keys exchanged successfully.")]) ∧
    (exchange_keys (constBackend 503 "down" none) ⟨1, 2⟩).2 =
      .httpError 503 "down" :=
  ⟨(entangle_exchange_contract (constBackend 200 "ok" none) ⟨1, 2⟩ ⟨1, 2⟩).1 rfl,
   (entangle_exchange_contract (constBackend 503 "down" none) ⟨1, 2⟩ ⟨1, 2⟩).2.1
     (by decide),
   (entangle_exchange_contract (constBackend 200 "ok" none) ⟨1, 2⟩ ⟨1, 2⟩).2.2.1 rfl,
   (entangle_exchange_contract (constBackend 503 "down" none) ⟨1, 2⟩ ⟨1, 2⟩).2.2.2
     (by decide)⟩

/-- C4: `send_message` on backend 200 returns the backend JSON body
unchanged, on any other status fails with the backend status and body, and
it is the only POST operation whose success body is passed through: the
other three POST handlers return fixed confirmations on success, for every
backend (hence independent of the backend body). -/
theorem send_message_passthrough (backend : Backend) (s : SendMessageRequest)
    (reg : RegisterNodeRequest) (e : EntangleNodesRequest)
    (k : KeyExchangeRequest) :
    (∀ j, (backend s.outbound).status_code = 200 →
      (backend s.outbound).json = some j →
      (send_message backend s).2 = .ok j) ∧
    ((backend s.outbound).status_code ≠ 200 →
      (send_message backend s).2 =
        .httpError (backend s.outbound).status_code (backend s.outbound).text) ∧
    ((backend reg.outbound).status_code = 201 →
      (register_node backend reg).2 =
        .ok (.obj [("message", .str "Node registered successfully.")])) ∧
    ((backend e.outbound).status_code = 200 →
      (entangle_nodes backend e).2 =
        .ok (.obj [("message", .str "Nodes entangled successfully.")])) ∧
    ((backend k.outbound).status_code = 200 →
      (exchange_keys backend k).2 =
        .ok (.obj [("message", .str "Keys exchanged successfully.")])) := by
  refine ⟨fun j h hj => ?_, fun h => ?_, fun h => ?_, fun h => ?_, fun h => ?_⟩ <;>
    simp [send_message, register_node, entangle_nodes, exchange_keys,
      responseJson, h]
  simp [hj]

/-- Witness for C4: a backend replying 200 with JSON body
`[("delivered", true)]` has that body passed through; 502 is surfaced; the
other three POSTs return their fixed confirmations on success. -/
theorem send_message_passthrough_witness :
    (send_message (constBackend 200 "raw" (some (.obj [("delivered", .bool true)])))
        ⟨1, 2, "hi"⟩).2 = .ok (.obj [("delivered", .bool true)]) ∧
    (send_message (constBackend 502 "bad gateway" none) ⟨1, 2, "hi"⟩).2 =
      .httpError 502 "bad gateway" ∧
    (register_node (constBackend 201 "anything" none) ⟨3⟩).2 =
      .ok (.obj [("message", .str "Node registered successfully.")]) ∧
    (entangle_nodes (constBackend 200 "anything" none) ⟨1, 2⟩).2 =
      .ok (.obj [("message", .str "Nodes entangled successfully.")]) ∧
    (exchange_keys (constBackend 200 "anything" none) ⟨1, 2⟩).2 =
      .ok (.obj [("message", .str "Keys exchanged successfully.")]) :=
  ⟨(send_message_passthrough
      (constBackend 200 "raw" (some (.obj [("delivered", .bool true)])))
      ⟨1, 2, "hi"⟩ ⟨3⟩ ⟨1, 2⟩ ⟨1, 2⟩).1 (.obj [("delivered", .bool true)]) rfl rfl,
   (send_message_passthrough (constBackend 502 "bad gateway" none)
      ⟨1, 2, "hi"⟩ ⟨3⟩ ⟨1, 2⟩ ⟨1, 2⟩).2.1 (by decide),
   (send_message_passthrough (constBackend 201 "anything" none)
      ⟨1, 2, "hi"⟩ ⟨3⟩ ⟨1, 2⟩ ⟨1, 2⟩).2.2.1 rfl,
   (send_message_passthrough (constBackend 200 "anything" none)
      ⟨1, 2, "hi"⟩ ⟨3⟩ ⟨1, 2⟩ ⟨1, 2⟩).2.2.2.1 rfl,
   (send_message_passthrough (constBackend 200 "anything" none)
      ⟨1, 2, "hi"⟩ ⟨3⟩ ⟨1, 2⟩ ⟨1, 2⟩).2.2.2.2 rfl⟩

end QuantumNet

namespace QuantumNet

/-- C5: `get_node_status` issues a read-only GET to the backend path
`node_status/` followed by the node id, returns the backend JSON body
unchanged on backend 200, and otherwise fails with the backend status and
body exactly. -/
theorem get_node_status_contract (backend : Backend) (node_id : Int) :
    (get_node_status backend node_id).1 =
      [⟨.get, RUST_API_URL ++ "/node_status/" ++ toString node_id, none⟩] ∧
    (∀ j, (backend (nodeStatusOutbound node_id)).status_code = 200 →
      (backend (nodeStatusOutbound node_id)).json = some j →
      (get_node_status backend node_id).2 = .ok j) ∧
    ((backend (nodeStatusOutbound node_id)).status_code ≠ 200 →
      (get_node_status backend node_id).2 =
        .httpError (backend (nodeStatusOutbound node_id)).status_code
          (backend (nodeStatusOutbound node_id)).text) := by
  refine ⟨rfl, fun j h hj => ?_, fun h => ?_⟩ <;>
    simp [get_node_status, responseJson, h]
  simp [hj]

/-- Witness for C5: on a backend replying 200 with a JSON body the body is
returned unchanged; on a backend replying 404 for node 5, the gateway
fails with 404 and the backend body as detail. -/
theorem get_node_status_contract_witness :
    (get_node_status (constBackend 200 "raw" (some (.obj [("active", .bool true)]))) 5).2 =
      .ok (.obj [("active", .bool true)]) ∧
    (get_node_status (constBackend 404 "Node not found" none) 5).2 =
      .httpError 404 "Node not found" :=
  ⟨(get_node_status_contract
      (constBackend 200 "raw" (some (.obj [("active", .bool true)]))) 5).2.1
      (.obj [("active", .bool true)]) rfl rfl,
   (get_node_status_contract (constBackend 404 "Node not found" none) 5).2.2
     (by decide)⟩

/-- C6: every operation issues exactly one outbound HTTP call, addressed to
the configured base address concatenated with the route name, carrying the
validated input serialized as the request body (or as the path parameter
for the status lookup). -/
theorem one_outbound_call (backend : Backend) (reg : RegisterNodeRequest)
    (e : EntangleNodesRequest) (k : KeyExchangeRequest)
    (s : SendMessageRequest) (node_id : Int) :
    (register_node backend reg).1 =
      [⟨.post, RUST_API_URL ++ "/register",
        some (.obj [("node_id", .num reg.node_id)])⟩] ∧
    (entangle_nodes backend e).1 =
      [⟨.post, RUST_API_URL ++ "/entangle",
        some (.obj [("node1", .num e.node1), ("node2", .num e.node2)])⟩] ∧
    (exchange_keys backend k).1 =
      [⟨.post, RUST_API_URL ++ "/exchange_keys",
        some (.obj [("node1", .num k.node1), ("node2", .num k.node2)])⟩] ∧
    (send_message backend s).1 =
      [⟨.post, RUST_API_URL ++ "/send_message",
        some (.obj [("sender_id", .num s.sender_id),
                    ("receiver_id", .num s.receiver_id),
                    ("message", .str s.message)])⟩] ∧
    (get_node_status backend node_id).1 =
      [⟨.get, RUST_API_URL ++ "/node_status/" ++ toString node_id, none⟩] :=
  ⟨rfl, rfl, rfl, rfl, rfl⟩

/-- C7: the HTTP trace of every operation has length one for every backend
reply (the backend is called exactly once, never retried, even on
failure), and each operation succeeds exactly under its documented success
condition (no fallback success, no partial outcome): register iff 201,
entangle and exchange iff 200, the two body-passthrough operations iff 200
with a JSON-parseable body. -/
theorem single_call_no_fallback (backend : Backend) (reg : RegisterNodeRequest)
    (e : EntangleNodesRequest) (k : KeyExchangeRequest)
    (s : SendMessageRequest) (node_id : Int) :
    (register_node backend reg).1.length = 1 ∧
    (entangle_nodes backend e).1.length = 1 ∧
    (exchange_keys backend k).1.length = 1 ∧
    (send_message backend s).1.length = 1 ∧
    (get_node_status backend node_id).1.length = 1 ∧
    ((register_node backend reg).2.isOk = true ↔
      (backend reg.outbound).status_code = 201) ∧
    ((entangle_nodes backend e).2.isOk = true ↔
      (backend e.outbound).status_code = 200) ∧
    ((exchange_keys backend k).2.isOk = true ↔
      (backend k.outbound).status_code = 200) ∧
    ((send_message backend s).2.isOk = true ↔
      (backend s.outbound).status_code = 200 ∧
        ((backend s.outbound).json).isSome = true) ∧
    ((get_node_status backend node_id).2.isOk = true ↔
      (backend (nodeStatusOutbound node_id)).status_code = 200 ∧
        ((backend (nodeStatusOutbound node_id)).json).isSome = true) := by
  refine ⟨rfl, rfl, rfl, rfl, rfl, ?_, ?_, ?_, ?_, ?_⟩
  · by_cases h : (backend reg.outbound).status_code = 201
    · simp [register_node, h, GatewayResult.isOk]
    · by_cases h2 : (backend reg.outbound).status_code = 409 <;>
        simp [register_node, h, h2, GatewayResult.isOk]
  · by_cases h : (backend e.outbound).status_code = 200 <;>
      simp [entangle_nodes, h, GatewayResult.isOk]
  · by_cases h : (backend k.outbound).status_code = 200 <;>
      simp [exchange_keys, h, GatewayResult.isOk]
  · by_cases h : (backend s.outbound).status_code = 200
    · cases hj : (backend s.outbound).json <;>
        simp [send_message, h, hj, responseJson, GatewayResult.isOk]
    · simp [send_message, h, GatewayResult.isOk]
  · by_cases h : (backend (nodeStatusOutbound node_id)).status_code = 200
    · cases hj : (backend (nodeStatusOutbound node_id)).json <;>
        simp [get_node_status, h, hj, responseJson, GatewayResult.isOk]
    · simp [get_node_status, h, GatewayResult.isOk]

end QuantumNet

namespace QuantumNet

/-- C8: every operation is deterministic and stateless.  The handlers are
pure functions of the request input and the backend oracle, and their full
result (trace and client-facing result) depends only on the backend reply
to the one outbound request of that call: two runs whose backends agree on
that reply produce identical results, independent of any other backend
behavior (hence of any prior or concurrent calls). -/
theorem stateless_deterministic (b1 b2 : Backend) (reg : RegisterNodeRequest)
    (e : EntangleNodesRequest) (k : KeyExchangeRequest)
    (s : SendMessageRequest) (node_id : Int) :
    (b1 reg.outbound = b2 reg.outbound →
      register_node b1 reg = register_node b2 reg) ∧
    (b1 e.outbound = b2 e.outbound →
      entangle_nodes b1 e = entangle_nodes b2 e) ∧
    (b1 k.outbound = b2 k.outbound →
      exchange_keys b1 k = exchange_keys b2 k) ∧
    (b1 s.outbound = b2 s.outbound →
      send_message b1 s = send_message b2 s) ∧
    (b1 (nodeStatusOutbound node_id) = b2 (nodeStatusOutbound node_id) →
      get_node_status b1 node_id = get_node_status b2 node_id) := by
  refine ⟨fun h => ?_, fun h => ?_, fun h => ?_, fun h => ?_, fun h => ?_⟩ <;>
    simp [register_node, entangle_nodes, exchange_keys, send_message,
      get_node_status, h]

/-- Witness for C8: two backends that differ on GET requests but agree on
the register request produce the same register result. -/
theorem stateless_deterministic_witness :
    register_node (constBackend 201 "a" none) ⟨1⟩ =
      register_node
        (fun q => if q.method = Method.post then ⟨201, "a", none⟩
                  else ⟨500, "other", none⟩) ⟨1⟩ :=
  (stateless_deterministic (constBackend 201 "a" none)
      (fun q => if q.method = Method.post then ⟨201, "a", none⟩
                else ⟨500, "other", none⟩)
      ⟨1⟩ ⟨1, 2⟩ ⟨1, 2⟩ ⟨1, 2, "hi"⟩ 5).1 rfl

/-- C9: when the backend replies 200 with a body that is not valid JSON,
`send_message` and `get_node_status` neither return a success value nor an
upstream error: the success branch escapes with the unhandled JSON
decoding exception. -/
theorem json_decode_partiality (backend : Backend) (s : SendMessageRequest)
    (node_id : Int) :
    ((backend s.outbound).status_code = 200 →
      (backend s.outbound).json = none →
      (send_message backend s).2 = .jsonDecodeError) ∧
    ((backend (nodeStatusOutbound node_id)).status_code = 200 →
      (backend (nodeStatusOutbound node_id)).json = none →
      (get_node_status backend node_id).2 = .jsonDecodeError) := by
  refine ⟨fun h hj => ?_, fun h hj => ?_⟩ <;>
    simp [send_message, get_node_status, responseJson, h, hj]

/-- Witness for C9 at a backend replying 200 with a non-JSON HTML body. -/
theorem json_decode_partiality_witness :
    (send_message (constBackend 200 "<html>" none) ⟨1, 2, "hi"⟩).2 =
      .jsonDecodeError ∧
    (get_node_status (constBackend 200 "<html>" none) 5).2 =
      .jsonDecodeError :=
  ⟨(json_decode_partiality (constBackend 200 "<html>" none) ⟨1, 2, "hi"⟩ 5).1
      rfl rfl,
   (json_decode_partiality (constBackend 200 "<html>" none) ⟨1, 2, "hi"⟩ 5).2
      rfl rfl⟩

/-- C10: success is decided by equality with a single status code, so for
entangle, exchange and send every backend status other than exactly 200
(including other 2xx codes) takes the failure branch with the backend
status and body, and register treats every status other than 201 and 409
(including 200) the same way. -/
theorem strict_status_equality (backend : Backend) (reg : RegisterNodeRequest)
    (e : EntangleNodesRequest) (k : KeyExchangeRequest)
    (s : SendMessageRequest) :
    ((backend e.outbound).status_code ≠ 200 →
      (entangle_nodes backend e).2 =
        .httpError (backend e.outbound).status_code (backend e.outbound).text) ∧
    ((backend k.outbound).status_code ≠ 200 →
      (exchange_keys backend k).2 =
        .httpError (backend k.outbound).status_code (backend k.outbound).text) ∧
    ((backend s.outbound).status_code ≠ 200 →
      (send_message backend s).2 =
        .httpError (backend s.outbound).status_code (backend s.outbound).text) ∧
    ((backend reg.outbound).status_code ≠ 201 →
      (backend reg.outbound).status_code ≠ 409 →
      (register_node backend reg).2 =
        .httpError (backend reg.outbound).status_code (backend reg.outbound).text) := by
  refine ⟨fun h => ?_, fun h => ?_, fun h => ?_, fun h1 h2 => ?_⟩
  · simp [entangle_nodes, h]
  · simp [exchange_keys, h]
  · simp [send_message, h]
  · simp [register_node, h1, h2]

/-- Witness for C10 at other 2xx statuses: backend 201 on entangle and
exchange, 204 on send, and 200 on register are all surfaced as upstream
failures. -/
theorem strict_status_equality_witness :
    (entangle_nodes (constBackend 201 "created" none) ⟨1, 2⟩).2 =
      .httpError 201 "created" ∧
    (exchange_keys (constBackend 201 "created" none) ⟨1, 2⟩).2 =
      .httpError 201 "created" ∧
    (send_message (constBackend 204 "" none) ⟨1, 2, "hi"⟩).2 =
      .httpError 204 "" ∧
    (register_node (constBackend 200 "ok" none) ⟨7⟩).2 =
      .httpError 200 "ok" :=
  ⟨(strict_status_equality (constBackend 201 "created" none) ⟨7⟩ ⟨1, 2⟩ ⟨1, 2⟩
      ⟨1, 2, "hi"⟩).1 (by decide),
   (strict_status_equality (constBackend 201 "created" none) ⟨7⟩ ⟨1, 2⟩ ⟨1, 2⟩
      ⟨1, 2, "hi"⟩).2.1 (by decide),
   (strict_status_equality (constBackend 204 "" none) ⟨7⟩ ⟨1, 2⟩ ⟨1, 2⟩
      ⟨1, 2, "hi"⟩).2.2.1 (by decide),
   (strict_status_equality (constBackend 200 "ok" none) ⟨7⟩ ⟨1, 2⟩ ⟨1, 2⟩
      ⟨1, 2, "hi"⟩).2.2.2 (by decide) (by decide)⟩

/-- C1 counterexample: 409 is not in the documented success set of register
(which is 201 only), yet on a backend 409 reply with body "boom" the
gateway's detail is the fixed message "Node already exists.", not the
backend body — so status-and-body pass-through does not hold for all five
operations on every non-success status. -/
theorem register_409_not_passthrough :
    (register_node (constBackend 409 "boom" none) ⟨7⟩).2 =
      .httpError 409 "Node already exists." ∧
    "Node already exists." ≠ "boom" :=
  ⟨rfl, by decide⟩

/-- C1 amended: for every backend reply whose status is not in the
documented success set, the gateway response carries exactly the backend
status, and its detail is exactly the backend body text — except register
on backend 409, where the status is still the backend's 409 but the detail
is the fixed message "Node already exists.". -/
theorem upstream_passthrough_amended (backend : Backend)
    (reg : RegisterNodeRequest) (e : EntangleNodesRequest)
    (k : KeyExchangeRequest) (s : SendMessageRequest) (node_id : Int) :
    ((backend reg.outbound).status_code ≠ 201 →
      (backend reg.outbound).status_code ≠ 409 →
      (register_node backend reg).2 =
        .httpError (backend reg.outbound).status_code (backend reg.outbound).text) ∧
    ((backend reg.outbound).status_code = 409 →
      (register_node backend reg).2 = .httpError 409 "Node already exists.") ∧
    ((backend e.outbound).status_code ≠ 200 →
      (entangle_nodes backend e).2 =
        .httpError (backend e.outbound).status_code (backend e.outbound).text) ∧
    ((backend k.outbound).status_code ≠ 200 →
      (exchange_keys backend k).2 =
        .httpError (backend k.outbound).status_code (backend k.outbound).text) ∧
    ((backend s.outbound).status_code ≠ 200 →
      (send_message backend s).2 =
        .httpError (backend s.outbound).status_code (backend s.outbound).text) ∧
    ((backend (nodeStatusOutbound node_id)).status_code ≠ 200 →
      (get_node_status backend node_id).2 =
        .httpError (backend (nodeStatusOutbound node_id)).status_code
          (backend (nodeStatusOutbound node_id)).text) := by
  refine ⟨fun h1 h2 => ?_, fun h => ?_, fun h => ?_, fun h => ?_,
    fun h => ?_, fun h => ?_⟩
  · simp [register_node, h1, h2]
  · simp [register_node, h]
  · simp [entangle_nodes, h]
  · simp [exchange_keys, h]
  · simp [send_message, h]
  · simp [get_node_status, h]

/-- Witness for the amended C1 at a backend replying 500 with body "err",
and at register on a backend 409 with body "boom". -/
theorem upstream_passthrough_amended_witness :
    (register_node (constBackend 500 "err" none) ⟨7⟩).2 =
      .httpError 500 "err" ∧
    (register_node (constBackend 409 "boom" none) ⟨7⟩).2 =
      .httpError 409 "Node already exists." ∧
    (entangle_nodes (constBackend 500 "err" none) ⟨1, 2⟩).2 =
      .httpError 500 "err" ∧
    (exchange_keys (constBackend 500 "err" none) ⟨1, 2⟩).2 =
      .httpError 500 "err" ∧
    (send_message (constBackend 500 "err" none) ⟨1, 2, "hi"⟩).2 =
      .httpError 500 "err" ∧
    (get_node_status (constBackend 500 "err" none) 5).2 =
      .httpError 500 "err" :=
  ⟨(upstream_passthrough_amended (constBackend 500 "err" none) ⟨7⟩ ⟨1, 2⟩
      ⟨1, 2⟩ ⟨1, 2, "hi"⟩ 5).1 (by decide) (by decide),
   (upstream_passthrough_amended (constBackend 409 "boom" none) ⟨7⟩ ⟨1, 2⟩
      ⟨1, 2⟩ ⟨1, 2, "hi"⟩ 5).2.1 rfl,
   (upstream_passthrough_amended (constBackend 500 "err" none) ⟨7⟩ ⟨1, 2⟩
      ⟨1, 2⟩ ⟨1, 2, "hi"⟩ 5).2.2.1 (by decide),
   (upstream_passthrough_amended (constBackend 500 "err" none) ⟨7⟩ ⟨1, 2⟩
      ⟨1, 2⟩ ⟨1, 2, "hi"⟩ 5).2.2.2.1 (by decide),
   (upstream_passthrough_amended (constBackend 500 "err" none) ⟨7⟩ ⟨1, 2⟩
      ⟨1, 2⟩ ⟨1, 2, "hi"⟩ 5).2.2.2.2.1 (by decide),
   (upstream_passthrough_amended (constBackend 500 "err" none) ⟨7⟩ ⟨1, 2⟩
      ⟨1, 2⟩ ⟨1, 2, "hi"⟩ 5).2.2.2.2.2 (by decide)⟩

end QuantumNet
